import Mathlib

/-!
Verification development for the med-query client's session/token lifecycle.

The embedding models, from the TypeScript source:
 - the Token Store module (`tokenStorage` in the token-storage utility):
   module-level `inMemoryToken`, the persisted keys `access_token` /
   `access_token_storage_mode`, environment probing (`isBrowser`), and the
   operations `initialize` (named `initStore` here), `setToken`, `clear`,
   `getToken`, `hasToken`, `getMode`;
 - `ApiClient.request` from `App.tsx` (fetch, JSON-parse fallback, the
   catch-all that resolves with status 0);
 - `authAPI.login` / `authAPI.logout` from `App.tsx`;
 - the Session Manager from `AuthContext.tsx`: `checkAuth` (startup
   reconciliation), `login`, `logout`, React state `user` / `isLoading`,
   and the `mq_user` cached-user key.

Browser storage primitives may throw (quota exceeded, storage disabled), so
stateful operations are given an explicit error channel
`Except String Unit × World`: the `Except` is the operation's outcome
(an `error` models a thrown JS exception escaping the operation) and the
`World` is the state after the operation, including mutations performed
before the throw.  `StorageFaults` says which storage primitives throw.
JS truthiness of strings (empty string is falsy) is modelled explicitly
where the source branches on it.
-/

namespace MedQuery

/-- `TokenStorageMode` from the token-storage utility: `'memory'` is the
ephemeral mode, `'localStorage'` the durable mode. -/
inductive TokenStorageMode
  | memory
  | localStorage
  deriving DecidableEq, Repr

/-- The `User` shape from `AuthContext.tsx` (also the payload of the
backend's get-current-user endpoint). -/
structure UserRec where
  id : String
  email : String
  full_name : String
  role : String
  license_number : Option String := none
  institution : Option String := none
  specialization : Option String := none
  deriving DecidableEq, Repr

/-- The value stored under the `mq_user` key.  The source stores a JSON
string; a read either parses to a user (`valid`) or fails `JSON.parse`
(`corrupt`).  The code only ever writes `JSON.stringify` of a user, which
reads back as `valid` of the same user. -/
inductive CachedRecord
  | valid (u : UserRec)
  | corrupt
  deriving DecidableEq, Repr

/-- The browser's localStorage restricted to the three keys the program
uses: `access_token`, `access_token_storage_mode`, `mq_user`.  `none`
models an absent key. -/
structure Storage where
  access_token : Option String := none
  access_token_storage_mode : Option String := none
  mq_user : Option CachedRecord := none
  deriving DecidableEq, Repr

/-- The whole mutable state the claims are about: the environment flag
(`isBrowser()`), persistent storage, the Token Store's module-level
`inMemoryToken`, and the Session Manager's React state `user` and
`isLoading`. -/
structure World where
  browser : Bool
  storage : Storage := {}
  inMemoryToken : Option String := none
  user : Option UserRec := none
  isLoading : Bool := true
  deriving DecidableEq, Repr

/-- Which persistent-storage primitives throw (quota exceeded, storage
disabled, ...).  A field set to `true` means every call to that primitive
throws during the modelled operation. -/
structure StorageFaults where
  getThrows : Bool := false
  setThrows : Bool := false
  removeThrows : Bool := false
  deriving DecidableEq, Repr

/-- All storage primitives succeed. -/
def noFaults : StorageFaults := {}

/-- String stored for a mode by `persistMode`. -/
def modeString : TokenStorageMode → String
  | .memory => "memory"
  | .localStorage => "localStorage"

/-- `readMode` from the token-storage utility: non-browser environments are
`'memory'`; otherwise the persisted marker is read and anything other than
the literal `'localStorage'` yields `'memory'`.  The storage read may
throw. -/
def readMode (f : StorageFaults) (w : World) : Except String TokenStorageMode :=
  if !w.browser then
    Except.ok TokenStorageMode.memory
  else if f.getThrows then
    Except.error "storage read failed"
  else
    Except.ok
      (if w.storage.access_token_storage_mode = some "localStorage" then
        TokenStorageMode.localStorage
      else TokenStorageMode.memory)

/-- `persistMode` from the token-storage utility: no-op outside a browser,
otherwise writes the marker (the write may throw). -/
def persistMode (f : StorageFaults) (m : TokenStorageMode) (w : World) :
    Except String Unit × World :=
  if !w.browser then
    (Except.ok (), w)
  else if f.setThrows then
    (Except.error "storage write failed", w)
  else
    (Except.ok (),
      { w with storage := { w.storage with access_token_storage_mode := some (modeString m) } })

/-- `tokenStorage.initialize` (renamed `initStore`): no-op outside a
browser; otherwise reads the mode and, when it is `'localStorage'`, hydrates
`inMemoryToken` from the persisted `access_token` key.  With `f.getThrows`
the mode read throws first, so the token read is modelled by the same
flag. -/
def initStore (f : StorageFaults) (w : World) : Except String Unit × World :=
  if !w.browser then
    (Except.ok (), w)
  else
    match readMode f w with
    | Except.error e => (Except.error e, w)
    | Except.ok TokenStorageMode.localStorage =>
        (Except.ok (), { w with inMemoryToken := w.storage.access_token })
    | Except.ok TokenStorageMode.memory => (Except.ok (), w)

/-- `tokenStorage.setToken`: sets `inMemoryToken` unconditionally and first;
outside a browser that is all.  With `persist` it writes the token and
records the durable marker, otherwise it removes the persisted token and
records the ephemeral marker.  A storage throw escapes after the in-memory
assignment. -/
def setToken (f : StorageFaults) (t : String) (persistFlag : Bool) (w : World) :
    Except String Unit × World :=
  let w1 := { w with inMemoryToken := some t }
  if !w1.browser then
    (Except.ok (), w1)
  else if persistFlag then
    if f.setThrows then
      (Except.error "storage write failed", w1)
    else
      persistMode f TokenStorageMode.localStorage
        { w1 with storage := { w1.storage with access_token := some t } }
  else
    if f.removeThrows then
      (Except.error "storage remove failed", w1)
    else
      persistMode f TokenStorageMode.memory
        { w1 with storage := { w1.storage with access_token := none } }

/-- `tokenStorage.clear`: nulls `inMemoryToken` first; outside a browser
that is all; otherwise removes both persisted keys (removals may throw). -/
def clear (f : StorageFaults) (w : World) : Except String Unit × World :=
  let w1 := { w with inMemoryToken := none }
  if !w1.browser then
    (Except.ok (), w1)
  else if f.removeThrows then
    (Except.error "storage remove failed", w1)
  else
    (Except.ok (),
      { w1 with storage := { w1.storage with access_token := none,
                                             access_token_storage_mode := none } })

/-- `tokenStorage.getToken`: returns the in-memory token, no I/O. -/
def getToken (w : World) : Option String := w.inMemoryToken

/-- `tokenStorage.hasToken`: JS `!!inMemoryToken` — `null` and the empty
string are falsy. -/
def hasToken (w : World) : Bool :=
  match w.inMemoryToken with
  | none => false
  | some s => s ≠ ""

/-- `tokenStorage.getMode` = `readMode()`, with succeeding storage
primitives (under `noFaults` the read never throws; the `.getD` default is
unreachable). -/
def getModeP (w : World) : TokenStorageMode :=
  ((readMode noFaults w).toOption).getD TokenStorageMode.memory

/-- Fault-free variants (storage primitives succeed), projecting the
post-state. -/
def setTokenP (t : String) (persistFlag : Bool) (w : World) : World :=
  (setToken noFaults t persistFlag w).2

def clearP (w : World) : World :=
  (clear noFaults w).2

def initStoreP (w : World) : World :=
  (initStore noFaults w).2

/-- A process restart: all in-memory state resets (the module-level
`inMemoryToken` is `null` again, React state is fresh), persistent storage
and the environment survive. -/
def restart (w : World) : World :=
  { w with inMemoryToken := none, user := none, isLoading := true }

/-- A Token Store operation, for quantifying over operation sequences. -/
inductive TSOp
  | initOp
  | setOp (t : String) (persistFlag : Bool)
  | clearOp
  deriving DecidableEq, Repr

def applyOp : TSOp → World → World
  | TSOp.initOp, w => initStoreP w
  | TSOp.setOp t p, w => setTokenP t p w
  | TSOp.clearOp, w => clearP w

def runOps (ops : List TSOp) (w : World) : World :=
  ops.foldl (fun s op => applyOp op s) w

/-! ## `ApiClient.request` (App.tsx) -/

/-- The fields of a parsed JSON body that the client reads: `detail` and
`message` (error extraction), `access_token` (login response), and the
user payload of the get-current-user endpoint.  An absent field is `none`
(JS `undefined`).  Bodies that are not objects (e.g. JSON `null`, whose
field access would itself throw) are outside this model. -/
structure JsonBody where
  detail : Option String := none
  message : Option String := none
  access_token : Option String := none
  userPayload : Option UserRec := none
  deriving DecidableEq, Repr

/-- JS `x || d` for a string-valued field: `undefined` and `""` are
falsy. -/
def jsOrStr : Option String → String → String
  | some s, d => if s = "" then d else s
  | none, d => d

/-- JS truthiness of a string-valued field. -/
def strTruthy : Option String → Bool
  | some s => s ≠ ""
  | none => false

/-- `data.detail || data.message || 'An error occurred'`. -/
def errMsg (b : JsonBody) : String :=
  jsOrStr b.detail (jsOrStr b.message "An error occurred")

/-- A completed `fetch` `Response`: `ok`/`status`, the outcome of
`response.json()` and of the fallback `response.text()` (each may reject —
in browsers `text()` after a failed `json()` rejects because the body
stream is already consumed). -/
structure FetchResponse where
  ok : Bool
  status : Nat
  jsonBody : Except String JsonBody
  textBody : Except String String

/-- Outcome of the `fetch` call itself: it resolves with a response or
rejects with an error message (network unreachable, DNS failure, ...). -/
inductive FetchOutcome
  | success (r : FetchResponse)
  | reject (msg : String)

/-- The `ApiResponse<T>` shape returned by `ApiClient.request`. -/
structure ApiResponse where
  data : Option JsonBody := none
  error : Option String := none
  message : Option String := none
  status : Nat := 0
  deriving DecidableEq, Repr

/-- The return object built once a body `data` is available:
`data` only when `response.ok`, `error` only when not. -/
def mkApiResponse (r : FetchResponse) (body : JsonBody) : ApiResponse :=
  { data := if r.ok then some body else none
    error := if r.ok then none else some (errMsg body)
    message := body.message
    status := r.status }

/-- The body of `ApiClient.request`'s outer `try`: an `error` result is a
thrown JS exception that would escape were it not for the catch-all.
The `json()` failure path falls back to `text()` and wraps it as
`{ detail: textData || 'Invalid response format' }`. -/
def requestCore (o : FetchOutcome) : Except String ApiResponse :=
  match o with
  | FetchOutcome.reject msg => Except.error msg
  | FetchOutcome.success r =>
      match r.jsonBody with
      | Except.ok body => Except.ok (mkApiResponse r body)
      | Except.error _ =>
          match r.textBody with
          | Except.error e => Except.error e
          | Except.ok txt =>
              Except.ok (mkApiResponse r { detail := some (jsOrStr (some txt) "Invalid response format") })

/-- `ApiClient.request`: the outer catch turns any thrown error into a
resolved `ApiResponse` with `status: 0` and the error's message. -/
def request (o : FetchOutcome) : ApiResponse :=
  match requestCore o with
  | Except.ok resp => resp
  | Except.error e => { error := some e, status := 0 }

/-! ## `authAPI` wrappers (App.tsx) -/

/-- JS-truthy `response.data?.access_token`. -/
def respToken (r : ApiResponse) : Option String :=
  match r.data with
  | some body =>
      match body.access_token with
      | some t => if t = "" then none else some t
      | none => none
  | none => none

/-- `authAPI.login`: POSTs the credentials; when the response carries a
truthy `access_token`, stores it via `apiClient.setToken` with the caller's
`persistSession` preference (JS default parameter: an absent preference
means `persist = false`).  Returns the raw response. -/
def authLogin (o : FetchOutcome) (persistSession : Option Bool) (w : World) :
    ApiResponse × World :=
  let resp := request o
  match respToken resp with
  | some t => (resp, setTokenP t (persistSession.getD false) w)
  | none => (resp, w)

/-- `authAPI.logout`: POSTs, then `apiClient.removeToken()`
(= `tokenStorage.clear()`), and returns the response. -/
def authLogout (o : FetchOutcome) (w : World) : ApiResponse × World :=
  let resp := request o
  (resp, clearP w)

/-! ## Session Manager (AuthContext.tsx) -/

/-- The first block of `checkAuth`: when a token is present and we are in a
browser, read `mq_user`; if it is present and parses, `setUser(parsed)`;
a parse failure or absence is ignored.  (Storage reads here are wrapped in
try/catch in the source; modelled with succeeding storage.) -/
def checkAuthStep1 (w : World) : World :=
  if hasToken w ∧ w.browser then
    match w.storage.mq_user with
    | some (CachedRecord.valid u) => { w with user := some u }
    | some CachedRecord.corrupt => w
    | none => w
  else w

/-- `const cachedUser = ... getItem('mq_user')` read back as a truthiness
test (`hasToken && !cachedUser`). -/
def cachedPresent (w : World) : Bool :=
  w.browser ∧ w.storage.mq_user.isSome

/-- The shared handling of an `authAPI.getCurrentUser()` response inside
`checkAuth`: on `response.data && response.status === 200`, build the fresh
user from the payload, `setUser` it and write `mq_user` (best-effort);
on any other resolved response, `apiClient.removeToken()`, `setUser(null)`
and remove `mq_user`.  A response body without the user fields would make
`userData.id.toString()` throw mid-block; the enclosing catch logs it and
leaves the state untouched, which is what the `none` payload case
returns. -/
def applyUserResponse (resp : ApiResponse) (w : World) : World :=
  if resp.data.isSome ∧ resp.status = 200 then
    match resp.data with
    | some body =>
        match body.userPayload with
        | some u =>
            let w1 := { w with user := some u }
            if w1.browser then
              { w1 with storage := { w1.storage with mq_user := some (CachedRecord.valid u) } }
            else w1
        | none => w
    | none => w
  else
    let w1 := { clearP w with user := none }
    if w1.browser then { w1 with storage := { w1.storage with mq_user := none } } else w1

/-- `checkAuth` from `AuthContext.tsx`, parameterised by the outcome `bg`
of the single `authAPI.getCurrentUser()` fetch it may issue.  Returns the
final world and how many backend calls were made.  Blocking path
(token, no cached record): the call is awaited before `isLoading` is
cleared (`finally`).  Otherwise `isLoading` is cleared first and, when a
token exists, the same call runs in the background.  Transport failures
never throw out of `authAPI.getCurrentUser` — `request` resolves them with
`status: 0` — so both catch blocks are unreachable for them and the
response handling above applies. -/
def checkAuth (bg : FetchOutcome) (w0 : World) : World × Nat :=
  let w := checkAuthStep1 w0
  if hasToken w ∧ ¬ cachedPresent w then
    let w1 := applyUserResponse (request bg) w
    ({ w1 with isLoading := false }, 1)
  else
    let w1 := { w with isLoading := false }
    if hasToken w1 then
      (applyUserResponse (request bg) w1, 1)
    else (w1, 0)

/-- `login` from `AuthContext.tsx`, parameterised by the fetch outcomes of
the login POST (`loginO`) and of the follow-up `getCurrentUser` (`userO`),
and by `options?.remember`.  Result: `Except.ok u` when the function
returns `true` having set user `u`; `Except.error m` when it throws an
`Error` with message `m` (the catch logs and rethrows).  Steps: a truthy
`response.error` throws with the backend message; otherwise a truthy
`access_token` triggers the user fetch, whose 200-with-payload success sets
the user and writes `mq_user`; every other fall-through throws the fixed
message `'Failed to fetch user data'`; a 200 user response whose body
lacks the user fields throws a `TypeError` from `userData.id.toString()`. -/
def loginFn (loginO userO : FetchOutcome) (remember : Option Bool) (w0 : World) :
    Except String UserRec × World :=
  let (resp, w1) := authLogin loginO remember w0
  if strTruthy resp.error then
    (Except.error (resp.error.getD ""), w1)
  else
    match respToken resp with
    | some _ =>
        let uResp := request userO
        if uResp.data.isSome ∧ uResp.status = 200 then
          match uResp.data with
          | some body =>
              match body.userPayload with
              | some u =>
                  let w2 := { w1 with user := some u }
                  let w3 :=
                    if w2.browser then
                      { w2 with storage := { w2.storage with mq_user := some (CachedRecord.valid u) } }
                    else w2
                  (Except.ok u, w3)
              | none => (Except.error "TypeError: cannot read properties of undefined", w1)
          | none => (Except.error "Failed to fetch user data", w1)
        else (Except.error "Failed to fetch user data", w1)
    | none => (Except.error "Failed to fetch user data", w1)

/-- `logout` from `AuthContext.tsx`.  `callOutcome` is the behaviour of the
awaited `authAPI.logout()` call: `Except.ok o` means the call completed
with fetch outcome `o` (running `authAPI.logout`'s own `removeToken` on the
way), `Except.error` means the awaited call threw.  Either way the `catch`
absorbs the throw and the `finally` runs: `setUser(null)`,
`apiClient.removeToken()`, and best-effort removal of `mq_user`. -/
def logoutFn (callOutcome : Except String FetchOutcome) (w0 : World) : World :=
  let w1 :=
    match callOutcome with
    | Except.ok o => (authLogout o w0).2
    | Except.error _ => w0
  let w2 := clearP { w1 with user := none }
  if w2.browser then { w2 with storage := { w2.storage with mq_user := none } } else w2

/-! ## Concrete fixtures -/

/-- An empty browser-environment world. -/
def wB : World := { browser := true }

/-- A fault pattern where every storage write throws (quota exceeded). -/
def faultSet : StorageFaults := { setThrows := true }

/-- A sample user (shape of the get-current-user payload). -/
def u0 : UserRec := { id := "1", email := "a@b.example", full_name := "Alice", role := "doctor" }

/-- Startup world of the optimistic background path: browser, durable token
`"tok"` hydrated in memory, and a valid cached `mq_user` record. -/
def wOpt : World :=
  { browser := true
    storage := { access_token := some "tok"
                 access_token_storage_mode := some "localStorage"
                 mq_user := some (CachedRecord.valid u0) }
    inMemoryToken := some "tok" }

/-- A browser world with a token but no cached artifacts, mid-session. -/
def wTok : World :=
  { browser := true
    storage := { access_token := some "tok", access_token_storage_mode := some "localStorage" }
    inMemoryToken := some "tok" }

/-- A 2xx login response whose JSON body is empty: no `error`, but also no
`access_token`. -/
def loginOkNoToken : FetchOutcome :=
  FetchOutcome.success { ok := true, status := 200, jsonBody := Except.ok {}, textBody := Except.ok "" }

/-- A 401 login response whose body carries `detail: "Invalid credentials"`. -/
def loginErrO : FetchOutcome :=
  FetchOutcome.success
    { ok := false, status := 401
      jsonBody := Except.ok { detail := some "Invalid credentials" }
      textBody := Except.ok "" }

/-- A 500 response with a JSON error body. -/
def respBad : FetchOutcome :=
  FetchOutcome.success
    { ok := false, status := 500
      jsonBody := Except.ok { detail := some "Server error" }
      textBody := Except.ok "" }

/-! ## Theorems -/

/-- Claim C4: for every token string `t`, after `setToken(t, persist=true)`,
a process restart, and `initialize()`, `getToken()` returns `t` and
`getMode()` returns the durable (`localStorage`) mode.  Stated in a browser
environment with succeeding storage, the setting in which persistence is
available. -/
theorem setToken_durable_survives_restart (t : String) (w : World)
    (hb : w.browser = true) :
    getToken (initStoreP (restart (setTokenP t true w))) = some t ∧
    getModeP (initStoreP (restart (setTokenP t true w))) = TokenStorageMode.localStorage := by
  rcases w with ⟨b, st, mem, u, l⟩
  subst hb
  simp [setTokenP, setToken, persistMode, noFaults, modeString, restart, initStoreP,
        initStore, readMode, getToken, getModeP, Except.toOption]

theorem setToken_durable_survives_restart_witness :
    getToken (initStoreP (restart (setTokenP "tok" true wB))) = some "tok" ∧
    getModeP (initStoreP (restart (setTokenP "tok" true wB))) = TokenStorageMode.localStorage :=
  setToken_durable_survives_restart "tok" wB rfl

/-- Claim C6: `clear()` is idempotent — a second `clear()` changes nothing,
and after one `clear()` the token is absent, `getMode()` is the ephemeral
(`memory`) mode, and (in a browser, where persisted artifacts exist) both
persisted keys are gone. -/
theorem clear_idempotent (w : World) :
    clearP (clearP w) = clearP w ∧
    getToken (clearP w) = none ∧
    getModeP (clearP w) = TokenStorageMode.memory ∧
    (w.browser = true →
      (clearP w).storage.access_token = none ∧
      (clearP w).storage.access_token_storage_mode = none) := by
  rcases w with ⟨b, ⟨a, m, mu⟩, mem, u, l⟩
  cases b <;>
    simp [clearP, clear, getToken, getModeP, readMode, noFaults, Except.toOption]

theorem clear_idempotent_witness :
    (clearP wOpt).storage.access_token = none ∧
    (clearP wOpt).storage.access_token_storage_mode = none :=
  (clear_idempotent wOpt).2.2.2 rfl

/-- Claim C7: for every token string `t`, after `setToken(t, persist=false)`
`getToken()` returns `t` within the same process, but after a simulated
process restart followed by `initialize()`, `getToken()` is absent.  Holds
from any starting world, browser or not. -/
theorem ephemeral_token_not_rehydrated (t : String) (w : World) :
    getToken (setTokenP t false w) = some t ∧
    getToken (initStoreP (restart (setTokenP t false w))) = none := by
  rcases w with ⟨b, ⟨a, m, mu⟩, mem, u, l⟩
  cases b <;>
    simp [setTokenP, setToken, persistMode, noFaults, modeString, restart, initStoreP,
          initStore, readMode, getToken]

/-- Claim C10: after every sequence of Token Store operations, `getMode()`
returns one of exactly the two modes, and it returns the durable
(`localStorage`) mode only in a browser whose persisted marker is exactly
the literal `"localStorage"` — any absent, corrupted, or foreign marker,
and any non-browser environment, maps to the ephemeral (`memory`) mode. -/
theorem getMode_binary_and_defaults_ephemeral (ops : List TSOp) (w0 : World) :
    (getModeP (runOps ops w0) = TokenStorageMode.memory ∨
      getModeP (runOps ops w0) = TokenStorageMode.localStorage) ∧
    (getModeP (runOps ops w0) = TokenStorageMode.localStorage ↔
      (runOps ops w0).browser = true ∧
      (runOps ops w0).storage.access_token_storage_mode = some "localStorage") := by
  rcases runOps ops w0 with ⟨b, ⟨a, m, mu⟩, mem, u, l⟩
  cases b
  · simp [getModeP, readMode, noFaults, Except.toOption]
  · by_cases hm : m = some "localStorage" <;>
      simp [getModeP, readMode, noFaults, Except.toOption, hm]

/-- Claim C2 (counterexample): in a browser whose storage writes throw
(quota exceeded), `setToken("tok", persist=true)` lets the storage
exception escape to the caller — the Token Store does not catch storage
errors — although the in-memory token was already updated. -/
theorem setToken_storage_failure_throws :
    (setToken faultSet "tok" true wB).1 = Except.error "storage write failed" ∧
    (setToken faultSet "tok" true wB).2.inMemoryToken = some "tok" :=
  ⟨rfl, rfl⟩

/-- Claim C2 (amended): `setToken` and `clear` assign the in-memory token
before any storage access, so after these operations the in-memory token
equals its storage-success value under every fault pattern; with
succeeding storage primitives no operation throws; and outside a browser no
operation touches storage, so none throws under any fault pattern.  (The
unamended "never throws" is refuted by `setToken_storage_failure_throws`:
the source wraps no storage access of the token-storage module in
try/catch.) -/
theorem tokenStore_inMemory_authoritative (f : StorageFaults) (t : String)
    (pf : Bool) (w : World) :
    (setToken f t pf w).2.inMemoryToken = some t ∧
    (clear f w).2.inMemoryToken = none ∧
    (setToken noFaults t pf w).1 = Except.ok () ∧
    (clear noFaults w).1 = Except.ok () ∧
    (initStore noFaults w).1 = Except.ok () ∧
    (w.browser = false →
      (setToken f t pf w).1 = Except.ok () ∧
      (clear f w).1 = Except.ok () ∧
      (initStore f w).1 = Except.ok ()) := by
  rcases w with ⟨b, ⟨a, m, mu⟩, mem, u, l⟩
  rcases f with ⟨fg, fs, fr⟩
  by_cases hm : m = some "localStorage" <;>
    cases b <;> cases pf <;> cases fg <;> cases fs <;> cases fr <;>
      simp [setToken, clear, initStore, persistMode, readMode, noFaults, modeString, hm]

theorem tokenStore_inMemory_authoritative_witness :
    (setToken faultSet "tok" true { browser := false }).2.inMemoryToken = some "tok" ∧
    (setToken faultSet "tok" true { browser := false }).1 = Except.ok () :=
  ⟨(tokenStore_inMemory_authoritative faultSet "tok" true { browser := false }).1,
    ((tokenStore_inMemory_authoritative faultSet "tok" true { browser := false }).2.2.2.2.2 rfl).1⟩

/-- Claim C9: for every fetch outcome, `ApiClient.request` never rejects:
any exception thrown inside the method body (a rejecting fetch, or a body
that fails both `json()` and `text()`) is caught and resolved as an
`ApiResponse` with `status 0`, that error's message, and absent data; a
transport failure in particular resolves that way; and every non-2xx
response resolves with absent data and an error message present. -/
theorem request_never_rejects (o : FetchOutcome) :
    (∀ e, requestCore o = Except.error e →
      request o = { data := none, error := some e, message := none, status := 0 }) ∧
    (∀ m, o = FetchOutcome.reject m →
      request o = { data := none, error := some m, message := none, status := 0 }) ∧
    (∀ r, o = FetchOutcome.success r → r.ok = false →
      (request o).data = none ∧ ∃ m, (request o).error = some m) := by
  refine ⟨fun e he => by simp [request, he], fun m hm => by simp [hm, request, requestCore], ?_⟩
  rintro r rfl hok
  rcases r with ⟨ok, status, jb, tb⟩
  simp only at hok
  subst hok
  rcases jb with e | body
  · rcases tb with e2 | txt <;>
      simp [request, requestCore, mkApiResponse]
  · simp [request, requestCore, mkApiResponse]

theorem request_never_rejects_witness :
    request (FetchOutcome.reject "network down") =
      { data := none, error := some "network down", message := none, status := 0 } ∧
    (request respBad).data = none ∧ (∃ m, (request respBad).error = some m) :=
  ⟨(request_never_rejects (FetchOutcome.reject "network down")).2.1 "network down" rfl,
    (request_never_rejects respBad).2.2
      { ok := false, status := 500
        jsonBody := Except.ok { detail := some "Server error" }
        textBody := Except.ok "" } rfl rfl⟩

/-- Claim C8: on a cold start with no token (`hasToken() = false`, user
still at its initial `null`), `checkAuth` resolves directly to
Unauthenticated — user stays `null`, `isLoading` becomes `false`
(rendering unblocked) — and issues zero backend calls, whatever the
would-be backend behaviour. -/
theorem cold_start_no_token_unauthenticated (bg : FetchOutcome) (w : World)
    (ht : hasToken w = false) (hu : w.user = none) :
    (checkAuth bg w).1.user = none ∧
    (checkAuth bg w).1.isLoading = false ∧
    (checkAuth bg w).2 = 0 := by
  rcases w with ⟨b, ⟨a, m, mu⟩, mem, u, l⟩
  simp only at hu
  subst hu
  simp [checkAuth, checkAuthStep1, cachedPresent, hasToken] at ht ⊢
  rcases mem with _ | s
  · simp [checkAuth, checkAuthStep1, cachedPresent, hasToken]
  · simp only [hasToken] at ht
    simp [checkAuth, checkAuthStep1, cachedPresent, hasToken, ht]

theorem cold_start_no_token_unauthenticated_witness :
    (checkAuth (FetchOutcome.reject "network down") wB).1.user = none ∧
    (checkAuth (FetchOutcome.reject "network down") wB).1.isLoading = false ∧
    (checkAuth (FetchOutcome.reject "network down") wB).2 = 0 :=
  cold_start_no_token_unauthenticated (FetchOutcome.reject "network down") wB rfl rfl

/-- Claim C1 (code evaluated at the failing input): starting from the
optimistic background path — browser, token `"tok"`, valid cached user, so
`checkAuthStep1` renders `Authenticated(u0)` — a transport failure of the
background get-current-user fetch does NOT leave the session intact:
`ApiClient.request` resolves the rejection as `status 0`, `checkAuth`'s
non-200 branch runs, and the user is set to `null`, the token cleared and
the cached record erased, contradicting the spec's swallow-the-blip
sentence (whose `catch` in the source is unreachable for transport
failures). -/
theorem checkAuth_background_transport_failure_clears_session :
    (checkAuthStep1 wOpt).user = some u0 ∧
    (checkAuth (FetchOutcome.reject "Failed to fetch") wOpt).2 = 1 ∧
    (checkAuth (FetchOutcome.reject "Failed to fetch") wOpt).1.user = none ∧
    (checkAuth (FetchOutcome.reject "Failed to fetch") wOpt).1.inMemoryToken = none ∧
    (checkAuth (FetchOutcome.reject "Failed to fetch") wOpt).1.storage.mq_user = none :=
  ⟨rfl, rfl, rfl, rfl, rfl⟩

/-- Claim C3: whatever the awaited backend logout call does — completes
with any response (success or error status) or throws — after `logout()`
completes, the user is `null`, the Token Store holds no token, and both
persisted token artifacts and the cached user record are erased.  Stated in
a browser environment, where the persisted artifacts exist. -/
theorem logout_always_clears_session (o : Except String FetchOutcome) (w : World)
    (hb : w.browser = true) :
    (logoutFn o w).user = none ∧
    (logoutFn o w).inMemoryToken = none ∧
    (logoutFn o w).storage.access_token = none ∧
    (logoutFn o w).storage.access_token_storage_mode = none ∧
    (logoutFn o w).storage.mq_user = none := by
  rcases w with ⟨b, ⟨a, m, mu⟩, mem, u, l⟩
  subst hb
  rcases o with e | fo <;>
    simp [logoutFn, authLogout, clearP, clear, noFaults]

theorem logout_always_clears_session_witness :
    (logoutFn (Except.error "network down") wOpt).user = none ∧
    (logoutFn (Except.error "network down") wOpt).inMemoryToken = none ∧
    (logoutFn (Except.error "network down") wOpt).storage.access_token = none ∧
    (logoutFn (Except.error "network down") wOpt).storage.access_token_storage_mode = none ∧
    (logoutFn (Except.error "network down") wOpt).storage.mq_user = none :=
  logout_always_clears_session (Except.error "network down") wOpt rfl

/-- Claim C5 (counterexample): a 2xx login response with an empty JSON body
carries no error and no access token — the backend provided no message at
all — yet `login` fails with the fixed client-side message
`'Failed to fetch user data'`, so the failure does not carry a
backend-provided message as claimed. -/
theorem login_missing_token_fixed_message :
    (loginFn loginOkNoToken loginOkNoToken none wB).1 =
      Except.error "Failed to fetch user data" ∧
    (request loginOkNoToken).error = none ∧
    (request loginOkNoToken).data = some {} :=
  ⟨rfl, rfl, rfl⟩

/-- Claim C5 (amended): whenever the backend login response carries a
(truthy) error or no access token, `login` fails and the whole world —
session user included — is unchanged; when the response carries an error
message, the failure carries that backend-provided message; when it
carries no error (and hence no token), the failure carries the fixed
client message `'Failed to fetch user data'`. -/
theorem login_failure_leaves_user_unchanged (loginO userO : FetchOutcome)
    (remember : Option Bool) (w : World)
    (hyp : strTruthy (request loginO).error = true ∨ respToken (request loginO) = none) :
    (loginFn loginO userO remember w).2 = w ∧
    (∃ m, (loginFn loginO userO remember w).1 = Except.error m) ∧
    (∀ m, (request loginO).error = some m → m ≠ "" →
      (loginFn loginO userO remember w).1 = Except.error m) ∧
    (strTruthy (request loginO).error = false →
      (loginFn loginO userO remember w).1 = Except.error "Failed to fetch user data") := by
  have hdata : strTruthy (request loginO).error = true → respToken (request loginO) = none := by
    intro htr
    rcases hre : (request loginO).error with _ | m
    · simp [strTruthy, hre] at htr
    · rcases loginO with r | msg
      · rcases r with ⟨ok, status, jb, tb⟩
        rcases ok with _ | _
        · rcases jb with e | body
          · rcases tb with e2 | txt <;>
              simp_all [request, requestCore, mkApiResponse, respToken]
          · simp_all [request, requestCore, mkApiResponse, respToken]
        · rcases jb with e | body
          · rcases tb with e2 | txt <;>
              simp_all [request, requestCore, mkApiResponse, respToken]
          · simp_all [request, requestCore, mkApiResponse, respToken]
      · simp_all [request, requestCore, respToken]
  have hrt : respToken (request loginO) = none := by
    rcases hyp with htr | hrt
    · exact hdata htr
    · exact hrt
  rcases htr : strTruthy (request loginO).error with _ | _
  · refine ⟨?_, ?_, ?_, ?_⟩ <;>
      simp [loginFn, authLogin, hrt, htr]
    intro m hm hne
    simp [strTruthy, hm, hne] at htr
  · rcases hre : (request loginO).error with _ | m
    · simp [strTruthy, hre] at htr
    · rw [hre] at htr
      refine ⟨?_, ?_, ?_, ?_⟩ <;>
        simp [loginFn, authLogin, hrt, htr, hre]

theorem login_failure_leaves_user_unchanged_witness :
    (loginFn loginErrO loginErrO none wTok).2 = wTok ∧
    (loginFn loginErrO loginErrO none wTok).1 = Except.error "Invalid credentials" :=
  ⟨(login_failure_leaves_user_unchanged loginErrO loginErrO none wTok (Or.inl rfl)).1,
    (login_failure_leaves_user_unchanged loginErrO loginErrO none wTok (Or.inl rfl)).2.2.1
      "Invalid credentials" rfl (by decide)⟩

end MedQuery
